import Mathlib

/-!
# Verification of the electric_meter_calibration DL/T645 core

Shallow embedding of the frame builder (`src/core/frame_builder.py`), the
frame parser (`src/core/frame_parser.py`), the device communicator
(`src/core/device_communicator.py`) and the calibration executor
(`src/core/calibration_executor.py`), together with proofs of the spec's
claims about them.

Bytes are modelled as `Nat` with explicit `% 256` where the Python code
truncates; Python `bytes` values are `List Nat`; fallible code returns
`Option` or `Except`.
-/

/-! ## Frame builder (ExcelEquivalentFrameBuilder, frame_builder.py) -/

/-- `FRAME_START` constant (0x68). -/
def FRAME_START : Nat := 0x68

/-- `FRAME_END` constant (0x16). -/
def FRAME_END : Nat := 0x16

/-- `DATA_OFFSET` constant (0x33). -/
def DATA_OFFSET : Nat := 0x33

/-- `DEFAULT_CONTROL` constant (0x14). -/
def DEFAULT_CONTROL : Nat := 0x14

/-- The default address "111111111111" as it appears on the wire: six 0x11
bytes (reversing them leaves them unchanged, cf. frame.extend(addr_bytes[::-1])). -/
def default_address_wire : List Nat := [0x11, 0x11, 0x11, 0x11, 0x11, 0x11]

/-- `convert_excel_field_to_bytes(PASSWORD_FIELD)`: the builder always passes
the constant "33333333", whose first branch returns [0x00,0x00,0x00,0x00]. -/
def password_bytes : List Nat := [0x00, 0x00, 0x00, 0x00]

/-- `convert_excel_field_to_bytes(OPERATOR_CODE)`: the builder always passes
the constant "34333333", whose branch returns [0x01,0x00,0x00,0x00]. -/
def operator_bytes : List Nat := [0x01, 0x00, 0x00, 0x00]

/-- `B34_EXTRA` constant (0x00). -/
def B34_EXTRA : Nat := 0x00

/-- Value of one hexadecimal digit character, as accepted by Python's
int(s, 16) on the two-character tokens the builder slices. -/
def hexVal (c : Char) : Option Nat :=
  if '0' ≤ c ∧ c ≤ '9' then some (c.toNat - '0'.toNat)
  else if 'a' ≤ c ∧ c ≤ 'f' then some (c.toNat - 'a'.toNat + 10)
  else if 'A' ≤ c ∧ c ≤ 'F' then some (c.toNat - 'A'.toNat + 10)
  else none

/-- Byte value of a two-hex-character token. -/
def hexByteVal (hi lo : Char) : Option Nat := do
  let h ← hexVal hi
  let l ← hexVal lo
  pure (16 * h + l)

/-- `reverse_di_bytes` from frame_builder.py.  The Python function takes the
8-hex-character DI string, validates it, and emits the four wire bytes built
from the slices RIGHT(s,2), MID(s,5,2), MID(s,3,2), LEFT(s,2) (the build
routine then parses each token back into a byte).  Anything that is not
exactly 8 hex characters raises, modelled as `none`. -/
def reverse_di_bytes : List Char → Option (List Nat)
  | [c0, c1, c2, c3, c4, c5, c6, c7] => do
    let b3 ← hexByteVal c6 c7
    let b2 ← hexByteVal c4 c5
    let b1 ← hexByteVal c2 c3
    let b0 ← hexByteVal c0 c1
    pure [b3, b2, b1, b0]
  | _ => none

/-- The identifier's natural big-endian bytes read left-to-right
(byte0 byte1 byte2 byte3), the reading frame the spec uses to describe the
permutation.  Modelled from the spec's words for comparison purposes. -/
def di_natural_bytes : List Char → Option (List Nat)
  | [c0, c1, c2, c3, c4, c5, c6, c7] => do
    let b0 ← hexByteVal c0 c1
    let b1 ← hexByteVal c2 c3
    let b2 ← hexByteVal c4 c5
    let b3 ← hexByteVal c6 c7
    pure [b0, b1, b2, b3]
  | _ => none

/-- The wire order the spec asserts: [byte3, byte1, byte0, byte2] relative to
the natural big-endian order.  Modelled from the spec's words, to be compared
with `reverse_di_bytes`. -/
def spec_wire_order (di : List Char) : Option (List Nat) := do
  let nb ← di_natural_bytes di
  pure [nb.getD 3 0, nb.getD 1 0, nb.getD 0 0, nb.getD 2 0]

/-- `apply_data_offset` from frame_builder.py: (byte + 0x33) & 0xFF on each byte. -/
def apply_data_offset (data : List Nat) : List Nat :=
  data.map (fun b => (b + DATA_OFFSET) % 256)

/-- `calculate_checksum` from frame_builder.py: arithmetic sum of the bytes
from `start_pos` to the end, truncated to 8 bits. -/
def calculate_checksum (frame : List Nat) (start_pos : Nat) : Nat :=
  ((frame.drop start_pos).sum) % 256

/-- `build_frame_excel_equivalent` from frame_builder.py, with the default
address and control code (address=None, control_code=None in the Python
signature).  Follows the source step by step:
1. header: first 0x68, reversed 6-byte address, second 0x68, control code;
2. data field: permuted DI bytes ++ parameter bytes;
3. complete raw data: data field ++ password ++ operator ++ [B34_EXTRA];
4. 0x33 offset over the whole data part;
5. length byte (bytearray.append raises for values above 255, modelled `none`);
6. checksum computed with start_pos=0, i.e. over the whole frame so far;
7. end marker 0x16. -/
def build_frame_excel_equivalent (di : List Char) (params : List Nat) :
    Option (List Nat) := do
  let di_bytes ← reverse_di_bytes di
  let complete_data := apply_data_offset
    (di_bytes ++ params ++ password_bytes ++ operator_bytes ++ [B34_EXTRA])
  if complete_data.length ≤ 255 then
    let frame1 := FRAME_START ::
      (default_address_wire ++ (FRAME_START :: DEFAULT_CONTROL ::
        complete_data.length :: complete_data))
    pure (frame1 ++ [calculate_checksum frame1 0, FRAME_END])
  else none

/-- The DI "00F81500" used as default throughout the repository. -/
def di_00F81500 : List Char := ['0', '0', 'F', '8', '1', '5', '0', '0']

/-- The reference fixture frame from the Excel template
(6811111111111168140D33482B33333333333433333333FC16). -/
def excel_fixture_frame : List Nat :=
  [0x68, 0x11, 0x11, 0x11, 0x11, 0x11, 0x11, 0x68, 0x14, 0x0D,
   0x33, 0x48, 0x2B, 0x33, 0x33, 0x33, 0x33, 0x33, 0x34, 0x33, 0x33, 0x33, 0x33,
   0xFC, 0x16]

/-! ## Frame parser (DLT645FrameParser, frame_parser.py) -/

/-- `FrameParseResult` enum from frame_parser.py. -/
inductive FrameParseResult
  | success
  | invalid_format
  | checksum_error
  | length_error
  | unknown_error
deriving DecidableEq, Repr

/-- `ParsedFrame` dataclass from frame_parser.py (string-rendering fields such
as frame_hex are omitted; the DI fields hold byte lists instead of their hex
renderings). -/
structure ParsedFrame where
  parse_result : FrameParseResult := .success
  start_marker1 : Option Nat := none
  address : Option (List Nat) := none
  start_marker2 : Option Nat := none
  control_code : Option Nat := none
  data_length : Option Nat := none
  data_field : Option (List Nat) := none
  checksum : Option Nat := none
  end_marker : Option Nat := none
  di_bytes : Option (List Nat) := none
  di_original : Option (List Nat) := none
  parameter_data : Option (List Nat) := none
  password_field : Option (List Nat) := none
  operator_field : Option (List Nat) := none
  calculated_checksum : Option Nat := none
  checksum_valid : Bool := false
deriving DecidableEq, Repr

/-- `_parse_frame_structure` from frame_parser.py. Mirrors the sequence of
field assignments and early returns; `List.getD f i 0` stands for the byte
f[i], always in range when this function is reached (length ≥ 12 and the
declared-length check guard the later indices). -/
def parse_frame_structure (f : List Nat) (p : ParsedFrame) : ParsedFrame :=
  let p := { p with start_marker1 := some (f.getD 0 0) }
  if f.getD 0 0 ≠ FRAME_START then
    { p with parse_result := .invalid_format }
  else
    let p := { p with address := some ((f.drop 1).take 6),
                      start_marker2 := some (f.getD 7 0) }
    if f.getD 7 0 ≠ FRAME_START then
      { p with parse_result := .invalid_format }
    else
      let p := { p with control_code := some (f.getD 8 0),
                        data_length := some (f.getD 9 0) }
      let L := f.getD 9 0
      if f.length ≠ 10 + L + 1 + 1 then
        { p with parse_result := .length_error }
      else
        let p := if 0 < L then { p with data_field := some ((f.drop 10).take L) } else p
        let p := { p with checksum := some (f.getD (10 + L) 0),
                          end_marker := some (f.getD (10 + L + 1) 0) }
        if f.getD (10 + L + 1) 0 ≠ FRAME_END then
          { p with parse_result := .invalid_format }
        else p

/-- `_verify_checksum` from frame_parser.py: reference value computed over
frame_bytes[:-2] (the whole frame minus checksum and end marker); on mismatch
the parse result becomes checksum_error. -/
def verify_checksum (f : List Nat) (p : ParsedFrame) : ParsedFrame :=
  match p.data_length, p.checksum with
  | some _, some ck =>
    let calculated := (f.take (f.length - 2)).sum % 256
    let p := { p with calculated_checksum := some calculated,
                      checksum_valid := calculated = ck }
    if calculated ≠ ck then { p with parse_result := .checksum_error } else p
  | _, _ => p

/-- `_parse_data_field` from frame_parser.py: removes the 0x33 offset
((b - 0x33) & 0xFF, i.e. (b + 205) % 256 on byte values), recovers the DI in
original order (indices 3,2,1,0 of the de-offset prefix), and splits the
remainder into password/operator/parameter sub-fields. -/
def parse_data_field (data_field : List Nat) (p : ParsedFrame) : ParsedFrame :=
  if data_field.length < 4 then p
  else
    let deoffset := data_field.map (fun b => (b + 256 - DATA_OFFSET) % 256)
    let di := deoffset.take 4
    let p := { p with
      di_original := some [di.getD 3 0, di.getD 2 0, di.getD 1 0, di.getD 0 0],
      di_bytes := some di }
    let remaining := deoffset.drop 4
    if 8 ≤ remaining.length then
      let p := { p with password_field := some (remaining.take 4),
                        operator_field := some ((remaining.drop 4).take 4) }
      if 8 < remaining.length then
        { p with parameter_data := some (remaining.drop 8) }
      else p
    else if 0 < remaining.length then
      { p with parameter_data := some remaining }
    else p

/-- Final step of `parse_frame`: data-field decoding runs when a non-empty
data field was extracted (Python: `if parsed.data_field:`). -/
def parse_frame_finish (p : ParsedFrame) : ParsedFrame :=
  match p.data_field with
  | some d => if d.isEmpty then p else parse_data_field d p
  | none => p

/-- `parse_frame` from frame_parser.py on a bytes input: minimum-length check,
structure parse, checksum verification, then data-field decoding when a
non-empty data field was extracted.  No step of the model can throw, so the
unknown_error branch of the source is unreachable here. -/
def parse_frame (f : List Nat) : ParsedFrame :=
  if f.length < 12 then
    { parse_result := .length_error }
  else
    parse_frame_finish (verify_checksum f (parse_frame_structure f {}))

/-! ## Shape of the frames this codec produces and consumes -/

/-- Every frame handled here: a 10-byte header (two start markers, address,
control, declared length), a body, a checksum byte and an end byte. -/
def headerFrame (c0 c1 c2 c3 c4 c5 c6 c7 c8 c9 : Nat) (body : List Nat)
    (cs e : Nat) : List Nat :=
  c0 :: c1 :: c2 :: c3 :: c4 :: c5 :: c6 :: c7 :: c8 :: c9 :: (body ++ [cs, e])

/-- The parser's decision tree on a header-shaped frame, as a function of its
decision points (start markers, declared vs actual length, checksum
comparison, end marker), in the order the source checks them: structure
checks first, but a checksum mismatch found by the later verification step
overwrites an end-marker invalid_format. -/
def parse_outcome (c0 c7 c9 bodyLen cs e calcd : Nat) : FrameParseResult :=
  if c0 ≠ FRAME_START then .invalid_format
  else if c7 ≠ FRAME_START then .invalid_format
  else if bodyLen ≠ c9 then .length_error
  else if calcd ≠ cs then .checksum_error
  else if e ≠ FRAME_END then .invalid_format
  else .success

/-- The fields the structure pass fills in when every structural check passes
(parse_result still at its initial success value, end-marker check pending). -/
def pok (c0 c1 c2 c3 c4 c5 c6 c7 c8 c9 : Nat) (body : List Nat) (cs e : Nat) :
    ParsedFrame :=
  { start_marker1 := some c0, address := some [c1, c2, c3, c4, c5, c6],
    start_marker2 := some c7, control_code := some c8, data_length := some c9,
    data_field := some body, checksum := some cs, end_marker := some e }

/-! ## Device communicator (DeviceCommunicator, device_communicator.py) -/

/-- The exception classes of device_communicator.py that an attempt can
record: TimeoutError, ResponseValidationError, DeviceError, and the generic
CommunicationError base (raised e.g. when send_frame returns False). -/
inductive CommErrorKind
  | timeoutKind
  | responseValidationKind
  | deviceKind
  | generalKind
deriving DecidableEq, Repr

/-- `_is_complete_frame` from device_communicator.py: minimum length 12, both
start markers, declared length at most consistent with the buffer, and 0x16
as the very last byte. -/
def is_complete_frame (data : List Nat) : Bool :=
  if data.length < 12 then false
  else if data.getD 0 0 ≠ FRAME_START ∨ data.getD 7 0 ≠ FRAME_START then false
  else if 10 ≤ data.length then
    decide (10 + data.getD 9 0 + 1 + 1 ≤ data.length) &&
      decide (data.getLast? = some FRAME_END)
  else false

/-- The polling loop of `_wait_for_response`.  The serial port delivers a
chunk per poll (possibly empty when in_waiting == 0); `polls` is the sequence
of chunks delivered before the per-attempt deadline elapses.  The loop
accumulates chunks and returns the buffer as soon as a non-empty chunk makes
`_is_complete_frame` true; at the deadline it raises TimeoutError if the
buffer is empty, else ResponseValidationError ("incomplete response"). -/
def wait_for_response_go : List (List Nat) → List Nat →
    Except CommErrorKind (List Nat)
  | [], acc =>
    if acc.isEmpty then .error .timeoutKind
    else .error .responseValidationKind
  | chunk :: rest, acc =>
    if 0 < chunk.length then
      if is_complete_frame (acc ++ chunk) then .ok (acc ++ chunk)
      else wait_for_response_go rest (acc ++ chunk)
    else wait_for_response_go rest acc

/-- `_wait_for_response` starts from an empty receive buffer. -/
def wait_for_response (polls : List (List Nat)) :
    Except CommErrorKind (List Nat) :=
  wait_for_response_go polls []

/-- Outcome of one attempt inside `_send_with_retry`. -/
inductive AttemptOutcome
  | okFrame (f : List Nat)
  | errAttempt (e : CommErrorKind)
deriving DecidableEq, Repr

/-- One attempt of `_send_with_retry`: write the request frame (send_frame
returning False raises the generic CommunicationError), then block in
`_wait_for_response`.  Validation of a received frame
(`_validate_response`, which can raise ResponseValidationError) is outside
this definition: the claims settled here only exercise attempts that never
receive a frame. -/
def attempt_once (sendOk : Bool) (polls : List (List Nat)) : AttemptOutcome :=
  if !sendOk then .errAttempt .generalKind
  else
    match wait_for_response polls with
    | .ok f => .okFrame f
    | .error e => .errAttempt e

/-- `CommunicationResult` dataclass (timing fields omitted; the error is
recorded as the class of the last exception rather than its rendered
message). -/
structure CommunicationResult where
  success : Bool
  response_frame : Option (List Nat) := none
  error_kind : Option CommErrorKind := none
  retry_count : Nat := 0
deriving DecidableEq, Repr

/-- The retry loop of `_send_with_retry`: `for attempt in range(max_retries + 1)`,
each attempt's outcome given by `outcome attempt`; an exception stores the
last error and continues; a received frame returns success with
retry_count = attempt; exhaustion returns a failed result with
retry_count = max_retries.  The second component counts the attempts
performed (instrumentation). -/
def send_retry_go (maxRetries : Nat) (outcome : Nat → AttemptOutcome) :
    Nat → Nat → Option CommErrorKind → CommunicationResult × Nat
  | attempt, 0, lastErr =>
    ({ success := false, error_kind := lastErr, retry_count := maxRetries }, attempt)
  | attempt, fuel + 1, _ =>
    match outcome attempt with
    | .okFrame f =>
      ({ success := true, response_frame := some f, retry_count := attempt },
        attempt + 1)
    | .errAttempt err =>
      send_retry_go maxRetries outcome (attempt + 1) fuel (some err)

/-- `_send_with_retry`. -/
def send_with_retry (maxRetries : Nat) (outcome : Nat → AttemptOutcome) :
    CommunicationResult × Nat :=
  send_retry_go maxRetries outcome 0 (maxRetries + 1) none

/-- `send_calibration_command`: build the request frame (builder errors
propagate as a CommunicationError with no recorded communication cause),
run `_send_with_retry`, return the response frame on success, otherwise
raise CommunicationError whose message renders the recorded failure's last
error. -/
def send_calibration_command (di : List Char) (params : List Nat)
    (maxRetries : Nat) (outcome : Nat → AttemptOutcome) :
    Except (Option CommErrorKind) (List Nat) :=
  match build_frame_excel_equivalent di params with
  | none => .error none
  | some _ =>
    match send_with_retry maxRetries outcome with
    | (r, _) =>
      match r.success, r.response_frame with
      | true, some f => .ok f
      | _, _ => .error r.error_kind

/-! ## Calibration executor (CalibrationExecutor, calibration_executor.py) -/

/-- `StepStatus` enum from calibration_step.py. -/
inductive StepStatus
  | pending
  | running
  | success
  | failed
  | skipped
deriving DecidableEq, Repr

/-- `ExecutionStatus` enum from calibration_executor.py. -/
inductive ExecutionStatus
  | idle
  | running
  | paused
  | completed
  | failed
  | cancelled
deriving DecidableEq, Repr

/-- `ExecutionResult` (execution id, timing and the per-step result map
omitted; the ordered id lists are what the claims are about). -/
structure ExecutionResult where
  status : ExecutionStatus
  executed_steps : List String := []
  successful_steps : List String := []
  failed_steps : List String := []
  skipped_steps : List String := []
  error_message : Option String := none
deriving DecidableEq, Repr

/-- The executor state the claims touch: the cooperative stop flag and the
current status (the step objects, history list and counter are not needed by
any claim). -/
structure ExecutorState where
  stop_requested : Bool
  current_status : ExecutionStatus
deriving DecidableEq, Repr

/-- The five step ids registered by create_all_calibration_steps
(calibration_step.py). -/
def all_step_ids : List String :=
  ["step1", "step2", "step3", "step4", "step5"]

/-- The policy fields of `ExecutionConfig` the executor logic reads (mode and
delays are timing-only; the callback object is abstracted to `has_callback`,
whether progress_callback is set). -/
structure ExecCfg where
  stop_on_error : Bool
  auto_retry_failed : Bool
  max_step_retries : Nat
  has_callback : Bool
deriving DecidableEq, Repr

/-- The loop of `_retry_step`: `for retry_count in range(max_retries)`,
reset and re-execute, returning the first success, otherwise the last
result.  `runs k` is the outcome of the k-th `step.execute` call of the
enclosing `execute_single_step` invocation. -/
def retry_step_go (runs : Nat → StepStatus) :
    Nat → Nat → StepStatus → StepStatus
  | _, 0, last => last
  | k, remaining + 1, _ =>
    if runs k = .success then .success
    else retry_step_go runs (k + 1) remaining (runs k)

/-- `execute_single_step`: reset the step, execute it; when the result is
Failed and auto-retry is enabled, run `_retry_step` with max_step_retries. -/
def execute_single_step (cfg : ExecCfg) (runs : String → Nat → StepStatus)
    (id : String) : StepStatus :=
  if runs id 0 = .failed ∧ cfg.auto_retry_failed then
    retry_step_go (runs id) 1 cfg.max_step_retries (runs id 0)
  else runs id 0

/-- Result of one `execute_selected_steps` loop: the aggregate result, the
progress-callback invocations actually made (instrumentation), and whether an
exception (a callback raise, or a KeyError on an unknown step id) escaped
the loop into the batch-level exception handler. -/
structure GoOut where
  res : ExecutionResult
  trace : List (String × StepStatus)
  aborted : Bool
deriving DecidableEq, Repr

/-- The record-keeping of `_execute_step_with_tracking` once the step ran:
append to executed_steps and partition by terminal status. -/
def record_step (id : String) (st : StepStatus) (acc : ExecutionResult) :
    ExecutionResult :=
  { acc with
    executed_steps := acc.executed_steps ++ [id]
    successful_steps :=
      if st = .success then acc.successful_steps ++ [id] else acc.successful_steps
    failed_steps :=
      if st = .failed then acc.failed_steps ++ [id] else acc.failed_steps
    skipped_steps :=
      if st = .skipped then acc.skipped_steps ++ [id] else acc.skipped_steps }

/-- The per-step loop of `execute_selected_steps`.  Each iteration: check the
stop flag (break to Cancelled); look the step up in calibration_steps (an
unknown id raises KeyError); when a callback is configured invoke it with
Running (an exception escapes to the batch handler); run the step through
`execute_single_step`; record the result; invoke the callback with the
terminal status; on a Failed result with stop_on_error, break to Failed.
`cbRaises id st` says whether the caller-supplied callback raises on that
invocation; `known` is membership in the calibration_steps dict. -/
def run_steps_go (cfg : ExecCfg) (runs : String → Nat → StepStatus)
    (cbRaises : String → StepStatus → Bool) (known : String → Bool)
    (stopReq : Bool) : List String → ExecutionResult → GoOut
  | [], acc => ⟨acc, [], false⟩
  | id :: rest, acc =>
    if stopReq then ⟨{ acc with status := .cancelled }, [], false⟩
    else if ¬ known id then ⟨acc, [], true⟩
    else if cfg.has_callback ∧ cbRaises id .running then
      ⟨acc, [(id, .running)], true⟩
    else
      match execute_single_step cfg runs id, cfg.has_callback with
      | st, hascb =>
        let acc' := record_step id st acc
        let tr : List (String × StepStatus) :=
          if hascb then [(id, .running), (id, st)] else []
        if hascb ∧ cbRaises id st then ⟨acc', tr, true⟩
        else if st = .failed ∧ cfg.stop_on_error then
          let accStop := { acc' with
            status := ExecutionStatus.failed
            error_message := some "step failed, stopping" }
          ⟨accStop, tr, false⟩
        else
          match run_steps_go cfg runs cbRaises known stopReq rest acc' with
          | out => ⟨out.res, tr ++ out.trace, out.aborted⟩

/-- `execute_selected_steps` around the loop: start from a Running result; a
loop escaped by an exception is caught and marked Failed; otherwise a result
still Running when the loop ends is marked Completed. -/
def run_selected (cfg : ExecCfg) (runs : String → Nat → StepStatus)
    (cbRaises : String → StepStatus → Bool) (known : String → Bool)
    (stopReq : Bool) (ids : List String) : GoOut :=
  match run_steps_go cfg runs cbRaises known stopReq ids { status := .running } with
  | out =>
    if out.aborted then
      ⟨{ out.res with status := .failed, error_message := some "batch exception" },
        out.trace, true⟩
    else if out.res.status = .running then
      ⟨{ out.res with status := .completed }, out.trace, false⟩
    else out

/-- `execute_selected_steps` as a state transition: the loop reads the stop
flag; the finally block resets current_status to idle; the stop flag itself
is not modified anywhere in this method. -/
def execute_selected_steps (cfg : ExecCfg) (runs : String → Nat → StepStatus)
    (cbRaises : String → StepStatus → Bool) (known : String → Bool)
    (s : ExecutorState) (ids : List String) : ExecutorState × ExecutionResult :=
  match run_selected cfg runs cbRaises known s.stop_requested ids with
  | out => ({ s with current_status := .idle }, out.res)

/-- `cancel_execution`: set the stop flag; move a Running or Paused executor
to Cancelled. -/
def cancel_execution (s : ExecutorState) : ExecutorState :=
  { stop_requested := true,
    current_status :=
      if s.current_status = .running ∨ s.current_status = .paused then .cancelled
      else s.current_status }

/-- `reset_all_steps`: reset every step (not modelled), return to idle and
clear the stop flag. -/
def reset_all_steps (_ : ExecutorState) : ExecutorState :=
  { stop_requested := false, current_status := .idle }

theorem getD_cons10 (a0 a1 a2 a3 a4 a5 a6 a7 a8 a9 : Nat) (l : List Nat)
    (n d : Nat) :
    (a0 :: a1 :: a2 :: a3 :: a4 :: a5 :: a6 :: a7 :: a8 :: a9 :: l).getD (10 + n) d
      = l.getD n d := by
  have h : 10 + n = n + 1 + 1 + 1 + 1 + 1 + 1 + 1 + 1 + 1 + 1 := by omega
  rw [h]
  simp only [List.getD_cons_succ]

theorem take_cons10 (a0 a1 a2 a3 a4 a5 a6 a7 a8 a9 : Nat) (l : List Nat)
    (n : Nat) :
    (a0 :: a1 :: a2 :: a3 :: a4 :: a5 :: a6 :: a7 :: a8 :: a9 :: l).take (10 + n)
      = a0 :: a1 :: a2 :: a3 :: a4 :: a5 :: a6 :: a7 :: a8 :: a9 :: l.take n := by
  have h : 10 + n = n + 1 + 1 + 1 + 1 + 1 + 1 + 1 + 1 + 1 + 1 := by omega
  rw [h]
  simp only [List.take_succ_cons]

theorem set_cons10 (a0 a1 a2 a3 a4 a5 a6 a7 a8 a9 : Nat) (l : List Nat)
    (n v : Nat) :
    (a0 :: a1 :: a2 :: a3 :: a4 :: a5 :: a6 :: a7 :: a8 :: a9 :: l).set (10 + n) v
      = a0 :: a1 :: a2 :: a3 :: a4 :: a5 :: a6 :: a7 :: a8 :: a9 :: l.set n v := by
  have h : 10 + n = n + 1 + 1 + 1 + 1 + 1 + 1 + 1 + 1 + 1 + 1 := by omega
  rw [h]
  simp only [List.set_cons_succ]

theorem getD_append_len (l r : List Nat) (d : Nat) :
    (l ++ r).getD l.length d = r.getD 0 d := by
  rw [List.getD_append_right l r d l.length (Nat.le_refl _), Nat.sub_self]

theorem getD_append_len_succ (l r : List Nat) (d : Nat) :
    (l ++ r).getD (l.length + 1) d = r.getD 1 d := by
  rw [List.getD_append_right l r d _ (Nat.le_add_right _ _),
    Nat.add_sub_cancel_left]

theorem set_append_lt (l r : List Nat) (j v : Nat) (h : j < l.length) :
    (l ++ r).set j v = l.set j v ++ r := by
  rw [List.set_append, if_pos h]

theorem set_append_len (l r : List Nat) (v : Nat) :
    (l ++ r).set l.length v = l ++ r.set 0 v := by
  rw [List.set_append, if_neg (lt_irrefl _), Nat.sub_self]

theorem set_append_len_succ (l r : List Nat) (v : Nat) :
    (l ++ r).set (l.length + 1) v = l ++ r.set 1 v := by
  rw [List.set_append, if_neg (by omega), Nat.add_sub_cancel_left]

theorem sum_set_add (l : List Nat) (j v : Nat) (h : j < l.length) :
    (l.set j v).sum + l.getD j 0 = l.sum + v := by
  induction l generalizing j with
  | nil => simp at h
  | cons a t ih =>
    cases j with
    | zero => simp [List.sum_cons]; omega
    | succ n =>
      have hn : n < t.length := by simpa using h
      have := ih n hn
      simp only [List.set_cons_succ, List.sum_cons, List.getD_cons_succ]
      omega

theorem headerFrame_length (c0 c1 c2 c3 c4 c5 c6 c7 c8 c9 : Nat)
    (body : List Nat) (cs e : Nat) :
    (headerFrame c0 c1 c2 c3 c4 c5 c6 c7 c8 c9 body cs e).length
      = 12 + body.length := by
  simp [headerFrame]
  omega

theorem headerFrame_getD_cs (c0 c1 c2 c3 c4 c5 c6 c7 c8 c9 : Nat)
    (body : List Nat) (cs e : Nat) :
    (headerFrame c0 c1 c2 c3 c4 c5 c6 c7 c8 c9 body cs e).getD
      (10 + body.length) 0 = cs := by
  show (c0 :: c1 :: c2 :: c3 :: c4 :: c5 :: c6 :: c7 :: c8 :: c9 ::
    (body ++ [cs, e])).getD (10 + body.length) 0 = cs
  rw [getD_cons10, getD_append_len]
  rfl

theorem headerFrame_getD_e (c0 c1 c2 c3 c4 c5 c6 c7 c8 c9 : Nat)
    (body : List Nat) (cs e : Nat) :
    (headerFrame c0 c1 c2 c3 c4 c5 c6 c7 c8 c9 body cs e).getD
      (10 + body.length + 1) 0 = e := by
  show (c0 :: c1 :: c2 :: c3 :: c4 :: c5 :: c6 :: c7 :: c8 :: c9 ::
    (body ++ [cs, e])).getD (10 + body.length + 1) 0 = e
  have h : 10 + body.length + 1 = 10 + (body.length + 1) := by omega
  rw [h, getD_cons10, getD_append_len_succ]
  rfl

theorem headerFrame_take (c0 c1 c2 c3 c4 c5 c6 c7 c8 c9 : Nat)
    (body : List Nat) (cs e : Nat) :
    (headerFrame c0 c1 c2 c3 c4 c5 c6 c7 c8 c9 body cs e).take
      (10 + body.length)
      = c0 :: c1 :: c2 :: c3 :: c4 :: c5 :: c6 :: c7 :: c8 :: c9 :: body := by
  show (c0 :: c1 :: c2 :: c3 :: c4 :: c5 :: c6 :: c7 :: c8 :: c9 ::
    (body ++ [cs, e])).take (10 + body.length) = _
  rw [take_cons10, List.take_left]

theorem headerFrame_drop10_take (c0 c1 c2 c3 c4 c5 c6 c7 c8 c9 : Nat)
    (body : List Nat) (cs e : Nat) :
    ((headerFrame c0 c1 c2 c3 c4 c5 c6 c7 c8 c9 body cs e).drop 10).take
      body.length = body := by
  show ((body ++ [cs, e]).take body.length) = body
  rw [List.take_left]

theorem headerFrame_getD_0 (c0 c1 c2 c3 c4 c5 c6 c7 c8 c9 : Nat)
    (body : List Nat) (cs e : Nat) :
    (headerFrame c0 c1 c2 c3 c4 c5 c6 c7 c8 c9 body cs e).getD 0 0 = c0 := rfl

theorem headerFrame_getD_7 (c0 c1 c2 c3 c4 c5 c6 c7 c8 c9 : Nat)
    (body : List Nat) (cs e : Nat) :
    (headerFrame c0 c1 c2 c3 c4 c5 c6 c7 c8 c9 body cs e).getD 7 0 = c7 := rfl

theorem headerFrame_getD_8 (c0 c1 c2 c3 c4 c5 c6 c7 c8 c9 : Nat)
    (body : List Nat) (cs e : Nat) :
    (headerFrame c0 c1 c2 c3 c4 c5 c6 c7 c8 c9 body cs e).getD 8 0 = c8 := rfl

theorem headerFrame_getD_9 (c0 c1 c2 c3 c4 c5 c6 c7 c8 c9 : Nat)
    (body : List Nat) (cs e : Nat) :
    (headerFrame c0 c1 c2 c3 c4 c5 c6 c7 c8 c9 body cs e).getD 9 0 = c9 := rfl

theorem headerFrame_addr (c0 c1 c2 c3 c4 c5 c6 c7 c8 c9 : Nat)
    (body : List Nat) (cs e : Nat) :
    (((headerFrame c0 c1 c2 c3 c4 c5 c6 c7 c8 c9 body cs e).drop 1).take 6)
      = [c1, c2, c3, c4, c5, c6] := rfl

theorem parse_data_field_result (d : List Nat) (p : ParsedFrame) :
    (parse_data_field d p).parse_result = p.parse_result := by
  simp only [parse_data_field]
  split
  · rfl
  · split
    · split
      · rfl
      · rfl
    · split
      · rfl
      · rfl

theorem parse_data_field_valid (d : List Nat) (p : ParsedFrame) :
    (parse_data_field d p).checksum_valid = p.checksum_valid := by
  simp only [parse_data_field]
  split
  · rfl
  · split
    · split
      · rfl
      · rfl
    · split
      · rfl
      · rfl

theorem parse_data_field_calculated (d : List Nat) (p : ParsedFrame) :
    (parse_data_field d p).calculated_checksum = p.calculated_checksum := by
  simp only [parse_data_field]
  split
  · rfl
  · split
    · split
      · rfl
      · rfl
    · split
      · rfl
      · rfl

theorem parse_data_field_checksum (d : List Nat) (p : ParsedFrame) :
    (parse_data_field d p).checksum = p.checksum := by
  simp only [parse_data_field]
  split
  · rfl
  · split
    · split
      · rfl
      · rfl
    · split
      · rfl
      · rfl


theorem pfs_headerFrame_bad0 (c0 c1 c2 c3 c4 c5 c6 c7 c8 c9 : Nat)
    (body : List Nat) (cs e : Nat) (h0 : c0 ≠ FRAME_START) :
    parse_frame_structure (headerFrame c0 c1 c2 c3 c4 c5 c6 c7 c8 c9 body cs e) {}
      = { start_marker1 := some c0, parse_result := .invalid_format } := by
  simp only [parse_frame_structure, headerFrame_getD_0]
  rw [if_pos h0]

theorem pfs_headerFrame_bad7 (c0 c1 c2 c3 c4 c5 c6 c7 c8 c9 : Nat)
    (body : List Nat) (cs e : Nat) (h0 : c0 = FRAME_START) (h7 : c7 ≠ FRAME_START) :
    parse_frame_structure (headerFrame c0 c1 c2 c3 c4 c5 c6 c7 c8 c9 body cs e) {}
      = { start_marker1 := some c0, address := some [c1, c2, c3, c4, c5, c6],
          start_marker2 := some c7, parse_result := .invalid_format } := by
  simp only [parse_frame_structure, headerFrame_getD_0, headerFrame_getD_7,
    headerFrame_addr]
  rw [if_neg (by simp [h0]), if_pos h7]

theorem pfs_headerFrame_badlen (c0 c1 c2 c3 c4 c5 c6 c7 c8 c9 : Nat)
    (body : List Nat) (cs e : Nat) (h0 : c0 = FRAME_START)
    (h7 : c7 = FRAME_START) (h9 : body.length ≠ c9) :
    parse_frame_structure (headerFrame c0 c1 c2 c3 c4 c5 c6 c7 c8 c9 body cs e) {}
      = { start_marker1 := some c0, address := some [c1, c2, c3, c4, c5, c6],
          start_marker2 := some c7, control_code := some c8,
          data_length := some c9, parse_result := .length_error } := by
  simp only [parse_frame_structure, headerFrame_getD_0, headerFrame_getD_7,
    headerFrame_getD_8, headerFrame_getD_9, headerFrame_addr, headerFrame_length]
  rw [if_neg (by simp [h0]), if_neg (by simp [h7]),
    if_pos (show (12 : Nat) + body.length ≠ 10 + c9 + 1 + 1 by omega)]

theorem pfs_headerFrame_ok (c0 c1 c2 c3 c4 c5 c6 c7 c8 c9 : Nat)
    (body : List Nat) (cs e : Nat) (h0 : c0 = FRAME_START)
    (h7 : c7 = FRAME_START) (h9 : body.length = c9) (hL : 0 < body.length) :
    parse_frame_structure (headerFrame c0 c1 c2 c3 c4 c5 c6 c7 c8 c9 body cs e) {}
      = if e ≠ FRAME_END then
          { pok c0 c1 c2 c3 c4 c5 c6 c7 c8 c9 body cs e with
              parse_result := .invalid_format }
        else pok c0 c1 c2 c3 c4 c5 c6 c7 c8 c9 body cs e := by
  subst h9
  simp only [parse_frame_structure, headerFrame_getD_0, headerFrame_getD_7,
    headerFrame_getD_8, headerFrame_getD_9, headerFrame_addr, headerFrame_length,
    headerFrame_getD_cs, headerFrame_getD_e, headerFrame_drop10_take, pok]
  rw [if_neg (by simp [h0]), if_neg (by simp [h7]),
    if_neg (show ¬((12 : Nat) + body.length ≠ 10 + body.length + 1 + 1) by omega),
    if_pos hL]

/-- Complete evaluation of the parser on a header-shaped frame with a
non-empty body: the parse result follows the parser's decision tree
`parse_outcome`, the checksum_valid flag is set exactly when the structural
checks up to the length test pass and the reference sum matches, and the
reference value is recorded whenever it was computed. -/
theorem parse_frame_headerFrame (c0 c1 c2 c3 c4 c5 c6 c7 c8 c9 : Nat)
    (body : List Nat) (cs e : Nat) (hL : 0 < body.length) :
    (parse_frame (headerFrame c0 c1 c2 c3 c4 c5 c6 c7 c8 c9 body cs e)).parse_result
        = parse_outcome c0 c7 c9 body.length cs e
            ((c0 :: c1 :: c2 :: c3 :: c4 :: c5 :: c6 :: c7 :: c8 :: c9 :: body).sum % 256)
      ∧ ((parse_frame (headerFrame c0 c1 c2 c3 c4 c5 c6 c7 c8 c9 body cs e)).checksum_valid = true
          ↔ (c0 = FRAME_START ∧ c7 = FRAME_START ∧ body.length = c9 ∧
              (c0 :: c1 :: c2 :: c3 :: c4 :: c5 :: c6 :: c7 :: c8 :: c9 :: body).sum % 256 = cs))
      ∧ (parse_frame (headerFrame c0 c1 c2 c3 c4 c5 c6 c7 c8 c9 body cs e)).calculated_checksum
          = (if c0 = FRAME_START ∧ c7 = FRAME_START ∧ body.length = c9 then
              some ((c0 :: c1 :: c2 :: c3 :: c4 :: c5 :: c6 :: c7 :: c8 :: c9 :: body).sum % 256)
             else none) := by
  have hlen := headerFrame_length c0 c1 c2 c3 c4 c5 c6 c7 c8 c9 body cs e
  have hnot : ¬ ((headerFrame c0 c1 c2 c3 c4 c5 c6 c7 c8 c9 body cs e).length < 12) := by
    omega
  have hbe : body.isEmpty = false := by
    cases body with
    | nil => simp at hL
    | cons a t => rfl
  have htk : (headerFrame c0 c1 c2 c3 c4 c5 c6 c7 c8 c9 body cs e).length - 2
      = 10 + body.length := by omega
  rw [parse_frame, if_neg hnot]
  by_cases h0 : c0 = FRAME_START
  · by_cases h7 : c7 = FRAME_START
    · by_cases h9 : body.length = c9
      · rw [pfs_headerFrame_ok c0 c1 c2 c3 c4 c5 c6 c7 c8 c9 body cs e h0 h7 h9 hL]
        subst h0
        subst h7
        subst h9
        by_cases he : e = FRAME_END
        · rw [if_neg (by simp [he])]
          simp only [verify_checksum, pok]
          rw [htk, headerFrame_take]
          by_cases hcs : (FRAME_START :: c1 :: c2 :: c3 :: c4 :: c5 :: c6 ::
              FRAME_START :: c8 :: body.length :: body).sum % 256 = cs
          · simp only [List.sum_cons] at hcs
            simp [parse_frame_finish, parse_data_field_result, parse_data_field_valid,
              parse_data_field_calculated, hbe, parse_outcome, hcs, he]
          · simp only [List.sum_cons] at hcs
            simp [parse_frame_finish, parse_data_field_result, parse_data_field_valid,
              parse_data_field_calculated, hbe, parse_outcome, hcs, he]
        · rw [if_pos he]
          simp only [verify_checksum, pok]
          rw [htk, headerFrame_take]
          by_cases hcs : (FRAME_START :: c1 :: c2 :: c3 :: c4 :: c5 :: c6 ::
              FRAME_START :: c8 :: body.length :: body).sum % 256 = cs
          · simp only [List.sum_cons] at hcs
            simp [parse_frame_finish, parse_data_field_result, parse_data_field_valid,
              parse_data_field_calculated, hbe, parse_outcome, hcs, he]
          · simp only [List.sum_cons] at hcs
            simp [parse_frame_finish, parse_data_field_result, parse_data_field_valid,
              parse_data_field_calculated, hbe, parse_outcome, hcs, he]
      · rw [pfs_headerFrame_badlen c0 c1 c2 c3 c4 c5 c6 c7 c8 c9 body cs e h0 h7 h9]
        simp [parse_frame_finish, verify_checksum, parse_outcome, h0, h7, h9]
    · rw [pfs_headerFrame_bad7 c0 c1 c2 c3 c4 c5 c6 c7 c8 c9 body cs e h0 h7]
      simp [parse_frame_finish, verify_checksum, parse_outcome, h0, h7]
  · rw [pfs_headerFrame_bad0 c0 c1 c2 c3 c4 c5 c6 c7 c8 c9 body cs e h0]
    simp [parse_frame_finish, verify_checksum, parse_outcome, h0]

theorem apply_data_offset_length (l : List Nat) :
    (apply_data_offset l).length = l.length := by
  simp [apply_data_offset]

theorem apply_data_offset_lt (l : List Nat) :
    ∀ b ∈ apply_data_offset l, b < 256 := by
  intro b hb
  simp only [apply_data_offset, List.mem_map] at hb
  obtain ⟨a, _, rfl⟩ := hb
  exact Nat.mod_lt _ (by omega)

theorem reverse_di_bytes_length {di : List Char} {db : List Nat}
    (h : reverse_di_bytes di = some db) : db.length = 4 := by
  rcases di with _ | ⟨c0, _ | ⟨c1, _ | ⟨c2, _ | ⟨c3, _ | ⟨c4, _ | ⟨c5, _ |
    ⟨c6, _ | ⟨c7, _ | ⟨c8, rest⟩⟩⟩⟩⟩⟩⟩⟩⟩ <;>
    first
    | simp [reverse_di_bytes] at h
    | skip
  cases h67 : hexByteVal c6 c7 with
  | none => simp [reverse_di_bytes, h67] at h
  | some b3 =>
    cases h45 : hexByteVal c4 c5 with
    | none => simp [reverse_di_bytes, h67, h45] at h
    | some b2 =>
      cases h23 : hexByteVal c2 c3 with
      | none => simp [reverse_di_bytes, h67, h45, h23] at h
      | some b1 =>
        cases h01 : hexByteVal c0 c1 with
        | none => simp [reverse_di_bytes, h67, h45, h23, h01] at h
        | some b0 =>
          simp [reverse_di_bytes, h67, h45, h23, h01] at h
          rw [← h]
          rfl

/-- Every frame `build_frame_excel_equivalent` returns is header-shaped: the
default wire address 11..11 between the two 0x68 markers, control 0x14, a
13 + |params| byte data part of bytes below 256, the length byte equal to
that size, the whole-frame checksum and the 0x16 end marker. -/
theorem build_some_shape {di : List Char} {params f : List Nat}
    (h : build_frame_excel_equivalent di params = some f) :
    ∃ data : List Nat,
      data.length = 13 + params.length ∧ data.length ≤ 255 ∧
      (∀ b ∈ data, b < 256) ∧
      f = headerFrame FRAME_START 0x11 0x11 0x11 0x11 0x11 0x11 FRAME_START
            DEFAULT_CONTROL data.length data
            ((FRAME_START :: 0x11 :: 0x11 :: 0x11 :: 0x11 :: 0x11 :: 0x11 ::
              FRAME_START :: DEFAULT_CONTROL :: data.length :: data).sum % 256)
            FRAME_END := by
  unfold build_frame_excel_equivalent at h
  cases hdb : reverse_di_bytes di with
  | none => rw [hdb] at h; exact absurd h (by simp)
  | some db =>
    rw [hdb] at h
    simp only [Option.bind_eq_bind, Option.some_bind] at h
    by_cases hle : (apply_data_offset
        (db ++ params ++ password_bytes ++ operator_bytes ++ [B34_EXTRA])).length ≤ 255
    · rw [if_pos hle] at h
      refine ⟨apply_data_offset
        (db ++ params ++ password_bytes ++ operator_bytes ++ [B34_EXTRA]),
        ?_, hle, apply_data_offset_lt _, ?_⟩
      · rw [apply_data_offset_length]
        simp [password_bytes, operator_bytes, reverse_di_bytes_length hdb]
        omega
      · have hf : f = _ := (Option.some_inj.mp h).symm
        rw [hf]
        rfl
    · rw [if_neg hle] at h
      exact absurd h (by simp)

/-- When any of the parser's five accept-conditions fails, the outcome is one
of the three error results. -/
theorem parse_outcome_ne_success (c0 c7 c9 bodyLen cs e calcd : Nat)
    (h : ¬(c0 = FRAME_START ∧ c7 = FRAME_START ∧ bodyLen = c9 ∧ calcd = cs ∧
      e = FRAME_END)) :
    parse_outcome c0 c7 c9 bodyLen cs e calcd = .invalid_format ∨
    parse_outcome c0 c7 c9 bodyLen cs e calcd = .checksum_error ∨
    parse_outcome c0 c7 c9 bodyLen cs e calcd = .length_error := by
  unfold parse_outcome
  split_ifs with h1 h2 h3 h4 h5 <;> simp_all

/-- C2: build_frame_excel_equivalent on identifier "00F81500", empty
parameters and the default address and control code returns exactly the
reference byte sequence 68 11 11 11 11 11 11 68 14 0D 33 48 2B 33 33 33 33 33
34 33 33 33 33 FC 16. -/
theorem build_default_frame_matches_fixture :
    build_frame_excel_equivalent di_00F81500 [] = some excel_fixture_frame := by
  decide

/-- C4: whenever build_frame_excel_equivalent accepts an identifier/parameter
combination, parse_frame on the resulting frame reports Success with
checksum_valid set. -/
theorem parse_of_built_frame_succeeds (di : List Char) (params f : List Nat)
    (h : build_frame_excel_equivalent di params = some f) :
    (parse_frame f).parse_result = .success ∧
    (parse_frame f).checksum_valid = true := by
  obtain ⟨data, hlen13, hle, hlt, rfl⟩ := build_some_shape h
  have hL : 0 < data.length := by omega
  obtain ⟨hres, hval, hcalc⟩ := parse_frame_headerFrame FRAME_START 0x11 0x11
    0x11 0x11 0x11 0x11 FRAME_START DEFAULT_CONTROL data.length data
    ((FRAME_START :: 0x11 :: 0x11 :: 0x11 :: 0x11 :: 0x11 :: 0x11 ::
      FRAME_START :: DEFAULT_CONTROL :: data.length :: data).sum % 256)
    FRAME_END hL
  refine ⟨?_, ?_⟩
  · rw [hres]
    simp [parse_outcome]
  · rw [hval]
    simp

/-- C4 witness at the default identifier and empty parameters. -/
theorem parse_of_built_frame_succeeds_witness :
    build_frame_excel_equivalent di_00F81500 [] = some excel_fixture_frame ∧
    ((parse_frame excel_fixture_frame).parse_result = .success ∧
      (parse_frame excel_fixture_frame).checksum_valid = true) :=
  ⟨by decide, parse_of_built_frame_succeeds di_00F81500 [] excel_fixture_frame
    (by decide)⟩

/-- C1 (as stated) is false on the code: for the default built frame the
checksum byte is 0xFC, while the 8-bit sum over the span starting at the
second start marker (offset 7) through the end of the payload is 0x2E. -/
theorem checksum_span_offset7_refuted :
    build_frame_excel_equivalent di_00F81500 [] = some excel_fixture_frame ∧
    excel_fixture_frame.getD (excel_fixture_frame.length - 2) 0 = 0xFC ∧
    ((excel_fixture_frame.take (excel_fixture_frame.length - 2)).drop 7).sum % 256
      = 0x2E ∧
    (0xFC : Nat) ≠ 0x2E := by
  decide

/-- C1 amended: the checksum byte of every built frame is the 8-bit truncated
sum of every frame byte from the FIRST start marker (offset 0) through the
end of the payload (the whole frame minus the checksum and end-marker bytes),
and the parser computes its reference value over exactly that same span. -/
theorem checksum_spans_entire_frame (di : List Char) (params f : List Nat)
    (h : build_frame_excel_equivalent di params = some f) :
    f.getD (f.length - 2) 0 = (f.take (f.length - 2)).sum % 256 ∧
    (parse_frame f).calculated_checksum
      = some ((f.take (f.length - 2)).sum % 256) := by
  obtain ⟨data, hlen13, hle, hlt, rfl⟩ := build_some_shape h
  have hL : 0 < data.length := by omega
  have hlen := headerFrame_length FRAME_START 0x11 0x11 0x11 0x11 0x11 0x11
    FRAME_START DEFAULT_CONTROL data.length data
    ((FRAME_START :: 0x11 :: 0x11 :: 0x11 :: 0x11 :: 0x11 :: 0x11 ::
      FRAME_START :: DEFAULT_CONTROL :: data.length :: data).sum % 256) FRAME_END
  have htk : (headerFrame FRAME_START 0x11 0x11 0x11 0x11 0x11 0x11 FRAME_START
      DEFAULT_CONTROL data.length data
      ((FRAME_START :: 0x11 :: 0x11 :: 0x11 :: 0x11 :: 0x11 :: 0x11 ::
        FRAME_START :: DEFAULT_CONTROL :: data.length :: data).sum % 256)
      FRAME_END).length - 2 = 10 + data.length := by omega
  obtain ⟨hres, hval, hcalc⟩ := parse_frame_headerFrame FRAME_START 0x11 0x11
    0x11 0x11 0x11 0x11 FRAME_START DEFAULT_CONTROL data.length data
    ((FRAME_START :: 0x11 :: 0x11 :: 0x11 :: 0x11 :: 0x11 :: 0x11 ::
      FRAME_START :: DEFAULT_CONTROL :: data.length :: data).sum % 256)
    FRAME_END hL
  rw [htk, headerFrame_take, headerFrame_getD_cs, hcalc]
  simp

/-- C1-amended witness at the default identifier and empty parameters. -/
theorem checksum_spans_entire_frame_witness :
    build_frame_excel_equivalent di_00F81500 [] = some excel_fixture_frame ∧
    (excel_fixture_frame.getD (excel_fixture_frame.length - 2) 0
        = (excel_fixture_frame.take (excel_fixture_frame.length - 2)).sum % 256 ∧
      (parse_frame excel_fixture_frame).calculated_checksum
        = some ((excel_fixture_frame.take (excel_fixture_frame.length - 2)).sum % 256)) :=
  ⟨by decide, checksum_spans_entire_frame di_00F81500 [] excel_fixture_frame
    (by decide)⟩

/-- C3 (as stated) is false on the code: for identifier "00F81500" (natural
bytes 00 F8 15 00) the builder emits wire order 00 15 F8 00, not the
[byte3, byte1, byte0, byte2] order 00 F8 00 15 the spec asserts. -/
theorem di_wire_order_spec_refuted :
    reverse_di_bytes di_00F81500 = some [0x00, 0x15, 0xF8, 0x00] ∧
    spec_wire_order di_00F81500 = some [0x00, 0xF8, 0x00, 0x15] ∧
    ([0x00, 0x15, 0xF8, 0x00] : List Nat) ≠ [0x00, 0xF8, 0x00, 0x15] := by
  decide

/-- C3 amended: for every valid 8-hex-digit identifier the wire order emitted
by reverse_di_bytes is the plain byte reversal [byte3, byte2, byte1, byte0]
of the natural big-endian byte order. -/
theorem di_wire_order_is_plain_reversal (di : List Char) (db nb : List Nat)
    (h1 : reverse_di_bytes di = some db)
    (h2 : di_natural_bytes di = some nb) :
    db = nb.reverse := by
  rcases di with _ | ⟨c0, _ | ⟨c1, _ | ⟨c2, _ | ⟨c3, _ | ⟨c4, _ | ⟨c5, _ |
    ⟨c6, _ | ⟨c7, _ | ⟨c8, rest⟩⟩⟩⟩⟩⟩⟩⟩⟩ <;>
    first
    | simp [reverse_di_bytes] at h1
    | skip
  cases h67 : hexByteVal c6 c7 with
  | none => simp [reverse_di_bytes, h67] at h1
  | some b3 =>
    cases h45 : hexByteVal c4 c5 with
    | none => simp [reverse_di_bytes, h67, h45] at h1
    | some b2 =>
      cases h23 : hexByteVal c2 c3 with
      | none => simp [reverse_di_bytes, h67, h45, h23] at h1
      | some b1 =>
        cases h01 : hexByteVal c0 c1 with
        | none => simp [reverse_di_bytes, h67, h45, h23, h01] at h1
        | some b0 =>
          simp [reverse_di_bytes, h67, h45, h23, h01] at h1
          simp [di_natural_bytes, h67, h45, h23, h01] at h2
          rw [← h1, ← h2]
          rfl

/-- C3-amended witness at identifier "00F81500". -/
theorem di_wire_order_is_plain_reversal_witness :
    reverse_di_bytes di_00F81500 = some [0x00, 0x15, 0xF8, 0x00] ∧
    di_natural_bytes di_00F81500 = some [0x00, 0xF8, 0x15, 0x00] ∧
    ([0x00, 0x15, 0xF8, 0x00] : List Nat)
      = ([0x00, 0xF8, 0x15, 0x00] : List Nat).reverse :=
  ⟨by decide, by decide,
    di_wire_order_is_plain_reversal di_00F81500 _ _ (by decide) (by decide)⟩

/-- Changing any single byte of a well-formed frame (default-shaped header
bytes, matching length byte, whole-frame checksum, end marker) makes the
parser report invalid_format, checksum_error or length_error. -/
theorem headerFrame_mutation (a1 a2 a3 a4 a5 a6 a8 : Nat) (data : List Nat)
    (i v : Nat) (ha1 : a1 < 256) (ha2 : a2 < 256) (ha3 : a3 < 256)
    (ha4 : a4 < 256) (ha5 : a5 < 256) (ha6 : a6 < 256) (ha8 : a8 < 256)
    (hdb : ∀ b ∈ data, b < 256) (hL : 0 < data.length)
    (hi : i < 12 + data.length) (hv : v < 256)
    (hne : v ≠ (headerFrame FRAME_START a1 a2 a3 a4 a5 a6 FRAME_START a8
      data.length data ((FRAME_START :: a1 :: a2 :: a3 :: a4 :: a5 :: a6 ::
        FRAME_START :: a8 :: data.length :: data).sum % 256) FRAME_END).getD i 0) :
    (parse_frame ((headerFrame FRAME_START a1 a2 a3 a4 a5 a6 FRAME_START a8
      data.length data ((FRAME_START :: a1 :: a2 :: a3 :: a4 :: a5 :: a6 ::
        FRAME_START :: a8 :: data.length :: data).sum % 256) FRAME_END).set i v)).parse_result
      = .invalid_format ∨
    (parse_frame ((headerFrame FRAME_START a1 a2 a3 a4 a5 a6 FRAME_START a8
      data.length data ((FRAME_START :: a1 :: a2 :: a3 :: a4 :: a5 :: a6 ::
        FRAME_START :: a8 :: data.length :: data).sum % 256) FRAME_END).set i v)).parse_result
      = .checksum_error ∨
    (parse_frame ((headerFrame FRAME_START a1 a2 a3 a4 a5 a6 FRAME_START a8
      data.length data ((FRAME_START :: a1 :: a2 :: a3 :: a4 :: a5 :: a6 ::
        FRAME_START :: a8 :: data.length :: data).sum % 256) FRAME_END).set i v)).parse_result
      = .length_error := by
  rcases Nat.lt_or_ge i 10 with h10 | h10
  · interval_cases i
    · -- first start marker
      have hne' : v ≠ FRAME_START := hne
      rw [show (headerFrame FRAME_START a1 a2 a3 a4 a5 a6 FRAME_START a8
          data.length data ((FRAME_START :: a1 :: a2 :: a3 :: a4 :: a5 :: a6 ::
            FRAME_START :: a8 :: data.length :: data).sum % 256) FRAME_END).set 0 v
          = headerFrame v a1 a2 a3 a4 a5 a6 FRAME_START a8 data.length data
            ((FRAME_START :: a1 :: a2 :: a3 :: a4 :: a5 :: a6 :: FRAME_START ::
              a8 :: data.length :: data).sum % 256) FRAME_END from rfl,
        (parse_frame_headerFrame _ _ _ _ _ _ _ _ _ _ _ _ _ hL).1]
      refine parse_outcome_ne_success _ _ _ _ _ _ _ ?_
      rintro ⟨h, -⟩
      exact hne' h
    · -- address byte 1
      have hne' : v ≠ a1 := hne
      rw [show (headerFrame FRAME_START a1 a2 a3 a4 a5 a6 FRAME_START a8
          data.length data ((FRAME_START :: a1 :: a2 :: a3 :: a4 :: a5 :: a6 ::
            FRAME_START :: a8 :: data.length :: data).sum % 256) FRAME_END).set 1 v
          = headerFrame FRAME_START v a2 a3 a4 a5 a6 FRAME_START a8 data.length data
            ((FRAME_START :: a1 :: a2 :: a3 :: a4 :: a5 :: a6 :: FRAME_START ::
              a8 :: data.length :: data).sum % 256) FRAME_END from rfl,
        (parse_frame_headerFrame _ _ _ _ _ _ _ _ _ _ _ _ _ hL).1]
      refine parse_outcome_ne_success _ _ _ _ _ _ _ ?_
      rintro ⟨-, -, -, hcseq, -⟩
      simp only [List.sum_cons] at hcseq
      omega
    · -- address byte 2
      have hne' : v ≠ a2 := hne
      rw [show (headerFrame FRAME_START a1 a2 a3 a4 a5 a6 FRAME_START a8
          data.length data ((FRAME_START :: a1 :: a2 :: a3 :: a4 :: a5 :: a6 ::
            FRAME_START :: a8 :: data.length :: data).sum % 256) FRAME_END).set 2 v
          = headerFrame FRAME_START a1 v a3 a4 a5 a6 FRAME_START a8 data.length data
            ((FRAME_START :: a1 :: a2 :: a3 :: a4 :: a5 :: a6 :: FRAME_START ::
              a8 :: data.length :: data).sum % 256) FRAME_END from rfl,
        (parse_frame_headerFrame _ _ _ _ _ _ _ _ _ _ _ _ _ hL).1]
      refine parse_outcome_ne_success _ _ _ _ _ _ _ ?_
      rintro ⟨-, -, -, hcseq, -⟩
      simp only [List.sum_cons] at hcseq
      omega
    · -- address byte 3
      have hne' : v ≠ a3 := hne
      rw [show (headerFrame FRAME_START a1 a2 a3 a4 a5 a6 FRAME_START a8
          data.length data ((FRAME_START :: a1 :: a2 :: a3 :: a4 :: a5 :: a6 ::
            FRAME_START :: a8 :: data.length :: data).sum % 256) FRAME_END).set 3 v
          = headerFrame FRAME_START a1 a2 v a4 a5 a6 FRAME_START a8 data.length data
            ((FRAME_START :: a1 :: a2 :: a3 :: a4 :: a5 :: a6 :: FRAME_START ::
              a8 :: data.length :: data).sum % 256) FRAME_END from rfl,
        (parse_frame_headerFrame _ _ _ _ _ _ _ _ _ _ _ _ _ hL).1]
      refine parse_outcome_ne_success _ _ _ _ _ _ _ ?_
      rintro ⟨-, -, -, hcseq, -⟩
      simp only [List.sum_cons] at hcseq
      omega
    · -- address byte 4
      have hne' : v ≠ a4 := hne
      rw [show (headerFrame FRAME_START a1 a2 a3 a4 a5 a6 FRAME_START a8
          data.length data ((FRAME_START :: a1 :: a2 :: a3 :: a4 :: a5 :: a6 ::
            FRAME_START :: a8 :: data.length :: data).sum % 256) FRAME_END).set 4 v
          = headerFrame FRAME_START a1 a2 a3 v a5 a6 FRAME_START a8 data.length data
            ((FRAME_START :: a1 :: a2 :: a3 :: a4 :: a5 :: a6 :: FRAME_START ::
              a8 :: data.length :: data).sum % 256) FRAME_END from rfl,
        (parse_frame_headerFrame _ _ _ _ _ _ _ _ _ _ _ _ _ hL).1]
      refine parse_outcome_ne_success _ _ _ _ _ _ _ ?_
      rintro ⟨-, -, -, hcseq, -⟩
      simp only [List.sum_cons] at hcseq
      omega
    · -- address byte 5
      have hne' : v ≠ a5 := hne
      rw [show (headerFrame FRAME_START a1 a2 a3 a4 a5 a6 FRAME_START a8
          data.length data ((FRAME_START :: a1 :: a2 :: a3 :: a4 :: a5 :: a6 ::
            FRAME_START :: a8 :: data.length :: data).sum % 256) FRAME_END).set 5 v
          = headerFrame FRAME_START a1 a2 a3 a4 v a6 FRAME_START a8 data.length data
            ((FRAME_START :: a1 :: a2 :: a3 :: a4 :: a5 :: a6 :: FRAME_START ::
              a8 :: data.length :: data).sum % 256) FRAME_END from rfl,
        (parse_frame_headerFrame _ _ _ _ _ _ _ _ _ _ _ _ _ hL).1]
      refine parse_outcome_ne_success _ _ _ _ _ _ _ ?_
      rintro ⟨-, -, -, hcseq, -⟩
      simp only [List.sum_cons] at hcseq
      omega
    · -- address byte 6
      have hne' : v ≠ a6 := hne
      rw [show (headerFrame FRAME_START a1 a2 a3 a4 a5 a6 FRAME_START a8
          data.length data ((FRAME_START :: a1 :: a2 :: a3 :: a4 :: a5 :: a6 ::
            FRAME_START :: a8 :: data.length :: data).sum % 256) FRAME_END).set 6 v
          = headerFrame FRAME_START a1 a2 a3 a4 a5 v FRAME_START a8 data.length data
            ((FRAME_START :: a1 :: a2 :: a3 :: a4 :: a5 :: a6 :: FRAME_START ::
              a8 :: data.length :: data).sum % 256) FRAME_END from rfl,
        (parse_frame_headerFrame _ _ _ _ _ _ _ _ _ _ _ _ _ hL).1]
      refine parse_outcome_ne_success _ _ _ _ _ _ _ ?_
      rintro ⟨-, -, -, hcseq, -⟩
      simp only [List.sum_cons] at hcseq
      omega
    · -- second start marker
      have hne' : v ≠ FRAME_START := hne
      rw [show (headerFrame FRAME_START a1 a2 a3 a4 a5 a6 FRAME_START a8
          data.length data ((FRAME_START :: a1 :: a2 :: a3 :: a4 :: a5 :: a6 ::
            FRAME_START :: a8 :: data.length :: data).sum % 256) FRAME_END).set 7 v
          = headerFrame FRAME_START a1 a2 a3 a4 a5 a6 v a8 data.length data
            ((FRAME_START :: a1 :: a2 :: a3 :: a4 :: a5 :: a6 :: FRAME_START ::
              a8 :: data.length :: data).sum % 256) FRAME_END from rfl,
        (parse_frame_headerFrame _ _ _ _ _ _ _ _ _ _ _ _ _ hL).1]
      refine parse_outcome_ne_success _ _ _ _ _ _ _ ?_
      rintro ⟨-, h, -⟩
      exact hne' h
    · -- control code
      have hne' : v ≠ a8 := hne
      rw [show (headerFrame FRAME_START a1 a2 a3 a4 a5 a6 FRAME_START a8
          data.length data ((FRAME_START :: a1 :: a2 :: a3 :: a4 :: a5 :: a6 ::
            FRAME_START :: a8 :: data.length :: data).sum % 256) FRAME_END).set 8 v
          = headerFrame FRAME_START a1 a2 a3 a4 a5 a6 FRAME_START v data.length data
            ((FRAME_START :: a1 :: a2 :: a3 :: a4 :: a5 :: a6 :: FRAME_START ::
              a8 :: data.length :: data).sum % 256) FRAME_END from rfl,
        (parse_frame_headerFrame _ _ _ _ _ _ _ _ _ _ _ _ _ hL).1]
      refine parse_outcome_ne_success _ _ _ _ _ _ _ ?_
      rintro ⟨-, -, -, hcseq, -⟩
      simp only [List.sum_cons] at hcseq
      omega
    · -- length byte
      have hne' : v ≠ data.length := hne
      rw [show (headerFrame FRAME_START a1 a2 a3 a4 a5 a6 FRAME_START a8
          data.length data ((FRAME_START :: a1 :: a2 :: a3 :: a4 :: a5 :: a6 ::
            FRAME_START :: a8 :: data.length :: data).sum % 256) FRAME_END).set 9 v
          = headerFrame FRAME_START a1 a2 a3 a4 a5 a6 FRAME_START a8 v data
            ((FRAME_START :: a1 :: a2 :: a3 :: a4 :: a5 :: a6 :: FRAME_START ::
              a8 :: data.length :: data).sum % 256) FRAME_END from rfl,
        (parse_frame_headerFrame _ _ _ _ _ _ _ _ _ _ _ _ _ hL).1]
      refine parse_outcome_ne_success _ _ _ _ _ _ _ ?_
      rintro ⟨-, -, h9, -⟩
      exact hne' h9.symm
  · obtain ⟨j, rfl⟩ : ∃ j, i = 10 + j := ⟨i - 10, by omega⟩
    have hj2 : j < data.length + 2 := by omega
    rcases Nat.lt_trichotomy j data.length with hj | hj | hj
    · -- payload byte
      have hgd : (headerFrame FRAME_START a1 a2 a3 a4 a5 a6 FRAME_START a8
          data.length data ((FRAME_START :: a1 :: a2 :: a3 :: a4 :: a5 :: a6 ::
            FRAME_START :: a8 :: data.length :: data).sum % 256)
            FRAME_END).getD (10 + j) 0 = data.getD j 0 := by
        show (FRAME_START :: a1 :: a2 :: a3 :: a4 :: a5 :: a6 :: FRAME_START ::
          a8 :: data.length :: (data ++ [(FRAME_START :: a1 :: a2 :: a3 :: a4 ::
            a5 :: a6 :: FRAME_START :: a8 :: data.length :: data).sum % 256,
            FRAME_END])).getD (10 + j) 0 = data.getD j 0
        rw [getD_cons10, List.getD_append _ _ _ j hj]
      rw [hgd] at hne
      have hset : (headerFrame FRAME_START a1 a2 a3 a4 a5 a6 FRAME_START a8
          data.length data ((FRAME_START :: a1 :: a2 :: a3 :: a4 :: a5 :: a6 ::
            FRAME_START :: a8 :: data.length :: data).sum % 256)
            FRAME_END).set (10 + j) v
          = headerFrame FRAME_START a1 a2 a3 a4 a5 a6 FRAME_START a8
            data.length (data.set j v)
            ((FRAME_START :: a1 :: a2 :: a3 :: a4 :: a5 :: a6 :: FRAME_START ::
              a8 :: data.length :: data).sum % 256) FRAME_END := by
        show (FRAME_START :: a1 :: a2 :: a3 :: a4 :: a5 :: a6 :: FRAME_START ::
          a8 :: data.length :: (data ++ [(FRAME_START :: a1 :: a2 :: a3 :: a4 ::
            a5 :: a6 :: FRAME_START :: a8 :: data.length :: data).sum % 256,
            FRAME_END])).set (10 + j) v = _
        rw [set_cons10, set_append_lt _ _ _ _ hj]
        rfl
      have hLm : 0 < (data.set j v).length := by
        rw [List.length_set]
        exact hL
      have hmem : data.getD j 0 ∈ data := by
        rw [List.getD_eq_getElem _ _ hj]
        exact List.getElem_mem hj
      have hlt : data.getD j 0 < 256 := hdb _ hmem
      have hsum := sum_set_add data j v hj
      rw [hset, (parse_frame_headerFrame _ _ _ _ _ _ _ _ _ _ _ _ _ hLm).1]
      refine parse_outcome_ne_success _ _ _ _ _ _ _ ?_
      rintro ⟨-, -, -, hcseq, -⟩
      simp only [List.sum_cons] at hcseq
      omega
    · -- checksum byte
      subst hj
      have hgd : (headerFrame FRAME_START a1 a2 a3 a4 a5 a6 FRAME_START a8
          data.length data ((FRAME_START :: a1 :: a2 :: a3 :: a4 :: a5 :: a6 ::
            FRAME_START :: a8 :: data.length :: data).sum % 256)
            FRAME_END).getD (10 + data.length) 0
          = (FRAME_START :: a1 :: a2 :: a3 :: a4 :: a5 :: a6 :: FRAME_START ::
              a8 :: data.length :: data).sum % 256 :=
        headerFrame_getD_cs _ _ _ _ _ _ _ _ _ _ _ _ _
      rw [hgd] at hne
      have hset : (headerFrame FRAME_START a1 a2 a3 a4 a5 a6 FRAME_START a8
          data.length data ((FRAME_START :: a1 :: a2 :: a3 :: a4 :: a5 :: a6 ::
            FRAME_START :: a8 :: data.length :: data).sum % 256)
            FRAME_END).set (10 + data.length) v
          = headerFrame FRAME_START a1 a2 a3 a4 a5 a6 FRAME_START a8
            data.length data v FRAME_END := by
        show (FRAME_START :: a1 :: a2 :: a3 :: a4 :: a5 :: a6 :: FRAME_START ::
          a8 :: data.length :: (data ++ [(FRAME_START :: a1 :: a2 :: a3 :: a4 ::
            a5 :: a6 :: FRAME_START :: a8 :: data.length :: data).sum % 256,
            FRAME_END])).set (10 + data.length) v = _
        rw [set_cons10, set_append_len]
        rfl
      rw [hset, (parse_frame_headerFrame _ _ _ _ _ _ _ _ _ _ _ _ _ hL).1]
      refine parse_outcome_ne_success _ _ _ _ _ _ _ ?_
      rintro ⟨-, -, -, hcseq, -⟩
      exact hne hcseq.symm
    · -- end marker
      have hj1 : j = data.length + 1 := by omega
      subst hj1
      have hgd : (headerFrame FRAME_START a1 a2 a3 a4 a5 a6 FRAME_START a8
          data.length data ((FRAME_START :: a1 :: a2 :: a3 :: a4 :: a5 :: a6 ::
            FRAME_START :: a8 :: data.length :: data).sum % 256)
            FRAME_END).getD (10 + (data.length + 1)) 0 = FRAME_END := by
        have h11 : 10 + (data.length + 1) = 10 + data.length + 1 := by omega
        rw [h11]
        exact headerFrame_getD_e _ _ _ _ _ _ _ _ _ _ _ _ _
      rw [hgd] at hne
      have hset : (headerFrame FRAME_START a1 a2 a3 a4 a5 a6 FRAME_START a8
          data.length data ((FRAME_START :: a1 :: a2 :: a3 :: a4 :: a5 :: a6 ::
            FRAME_START :: a8 :: data.length :: data).sum % 256)
            FRAME_END).set (10 + (data.length + 1)) v
          = headerFrame FRAME_START a1 a2 a3 a4 a5 a6 FRAME_START a8
            data.length data
            ((FRAME_START :: a1 :: a2 :: a3 :: a4 :: a5 :: a6 :: FRAME_START ::
              a8 :: data.length :: data).sum % 256) v := by
        show (FRAME_START :: a1 :: a2 :: a3 :: a4 :: a5 :: a6 :: FRAME_START ::
          a8 :: data.length :: (data ++ [(FRAME_START :: a1 :: a2 :: a3 :: a4 ::
            a5 :: a6 :: FRAME_START :: a8 :: data.length :: data).sum % 256,
            FRAME_END])).set (10 + (data.length + 1)) v = _
        rw [set_cons10, set_append_len_succ]
        rfl
      rw [hset, (parse_frame_headerFrame _ _ _ _ _ _ _ _ _ _ _ _ _ hL).1]
      refine parse_outcome_ne_success _ _ _ _ _ _ _ ?_
      rintro ⟨-, -, -, -, heq⟩
      exact hne heq

/-- C5 (as stated) is false on the code: mutating the length byte of the
default built frame (0x0D at offset 9, changed to 0x0C) makes parse_frame
report length_error, which is neither ChecksumError nor InvalidFormat. -/
theorem length_byte_mutation_gives_length_error :
    build_frame_excel_equivalent di_00F81500 [] = some excel_fixture_frame ∧
    (0x0C : Nat) ≠ excel_fixture_frame.getD 9 0 ∧
    (parse_frame (excel_fixture_frame.set 9 0x0C)).parse_result = .length_error ∧
    FrameParseResult.length_error ≠ .checksum_error ∧
    FrameParseResult.length_error ≠ .invalid_format := by
  decide

/-- C5 amended: mutating any single byte of a frame built by
build_frame_excel_equivalent to a different byte value makes parse_frame
report InvalidFormat, ChecksumError or LengthError (the length byte is the
one position whose mutation yields LengthError rather than the other two). -/
theorem single_byte_mutation_rejected (di : List Char) (params f : List Nat)
    (h : build_frame_excel_equivalent di params = some f) (i v : Nat)
    (hi : i < f.length) (hv : v < 256) (hne : v ≠ f.getD i 0) :
    (parse_frame (f.set i v)).parse_result = .invalid_format ∨
    (parse_frame (f.set i v)).parse_result = .checksum_error ∨
    (parse_frame (f.set i v)).parse_result = .length_error := by
  obtain ⟨data, hlen13, hle, hlt, rfl⟩ := build_some_shape h
  have hL : 0 < data.length := by omega
  rw [headerFrame_length] at hi
  exact headerFrame_mutation 0x11 0x11 0x11 0x11 0x11 0x11 DEFAULT_CONTROL
    data i v (by omega) (by omega) (by omega) (by omega) (by omega) (by omega)
    (by simp [DEFAULT_CONTROL]) hlt hL hi hv hne

/-- C5-amended witness: flipping the first payload byte (offset 10) of the
default frame from 0x33 to 0x34 is detected as a checksum error. -/
theorem single_byte_mutation_rejected_witness :
    build_frame_excel_equivalent di_00F81500 [] = some excel_fixture_frame ∧
    (10 < excel_fixture_frame.length ∧ (0x34 : Nat) < 256 ∧
      (0x34 : Nat) ≠ excel_fixture_frame.getD 10 0) ∧
    ((parse_frame (excel_fixture_frame.set 10 0x34)).parse_result
        = .invalid_format ∨
      (parse_frame (excel_fixture_frame.set 10 0x34)).parse_result
        = .checksum_error ∨
      (parse_frame (excel_fixture_frame.set 10 0x34)).parse_result
        = .length_error) :=
  ⟨by decide, ⟨by decide, by decide, by decide⟩,
    single_byte_mutation_rejected di_00F81500 [] excel_fixture_frame
      (by decide) 10 0x34 (by decide) (by decide) (by decide)⟩

/-- Classification of a failed wait: if the polling loop ends in an error,
the error is TimeoutError exactly when the buffer plus everything delivered
stayed empty, and ResponseValidationError otherwise. -/
theorem wait_go_error_classify (polls : List (List Nat)) (acc : List Nat)
    (e : CommErrorKind) (h : wait_for_response_go polls acc = .error e) :
    (acc ++ polls.join = [] → e = .timeoutKind) ∧
    (acc ++ polls.join ≠ [] → e = .responseValidationKind) := by
  induction polls generalizing acc with
  | nil =>
    simp only [wait_for_response_go] at h
    by_cases ha : acc.isEmpty
    · rw [if_pos ha] at h
      have he : e = .timeoutKind := by
        cases h
        rfl
      have hacc : acc = [] := List.isEmpty_iff.mp ha
      subst hacc
      exact ⟨fun _ => he, fun hne => absurd (by simp) hne⟩
    · rw [if_neg ha] at h
      have he : e = .responseValidationKind := by
        cases h
        rfl
      have hacc : acc ≠ [] := fun hn => ha (by simp [hn])
      exact ⟨fun hc => absurd (by simpa using hc) hacc, fun _ => he⟩
  | cons chunk rest ih =>
    simp only [wait_for_response_go] at h
    by_cases hc : 0 < chunk.length
    · rw [if_pos hc] at h
      by_cases hcf : is_complete_frame (acc ++ chunk) = true
      · rw [if_pos hcf] at h
        cases h
      · rw [if_neg hcf] at h
        have hrec := ih (acc ++ chunk) h
        constructor
        · intro hjoin
          exact hrec.1 (by simpa [List.append_assoc] using hjoin)
        · intro hjoin
          exact hrec.2 (by simpa [List.append_assoc] using hjoin)
    · rw [if_neg hc] at h
      have hchunk : chunk = [] := by
        cases chunk with
        | nil => rfl
        | cons a t => simp at hc
      subst hchunk
      have hrec := ih acc h
      constructor
      · intro hjoin
        exact hrec.1 (by simpa using hjoin)
      · intro hjoin
        exact hrec.2 (by simpa using hjoin)

/-- C6: if the per-attempt deadline elapses (the wait ends in an error),
zero bytes received means the attempt fails with TimeoutError, while at
least one byte received with no structurally complete frame means it fails
with ResponseValidationError carrying the incomplete-response message — a
class distinct from TimeoutError. -/
theorem timeout_vs_incomplete_response (polls : List (List Nat))
    (e : CommErrorKind) (h : wait_for_response polls = .error e) :
    (polls.join = [] → e = .timeoutKind) ∧
    (polls.join ≠ [] → e = .responseValidationKind) ∧
    CommErrorKind.timeoutKind ≠ CommErrorKind.responseValidationKind := by
  have hc := wait_go_error_classify polls [] e h
  refine ⟨fun hj => hc.1 (by simpa using hj),
    fun hj => hc.2 (by simpa using hj), by decide⟩

/-- C6 witness: a transport that delivers a single byte 0x68 and then goes
quiet produces the incomplete-response failure, and the theorem classifies
it. -/
theorem timeout_vs_incomplete_response_witness :
    wait_for_response [[0x68]] = .error .responseValidationKind ∧
    ((([[0x68]] : List (List Nat)).join = [] →
        CommErrorKind.responseValidationKind = .timeoutKind) ∧
      (([[0x68]] : List (List Nat)).join ≠ [] →
        CommErrorKind.responseValidationKind = .responseValidationKind) ∧
      CommErrorKind.timeoutKind ≠ CommErrorKind.responseValidationKind) :=
  ⟨by rfl, timeout_vs_incomplete_response [[0x68]] _ (by rfl)⟩

/-- A poll sequence that never delivers a byte ends in TimeoutError. -/
theorem wait_join_nil (polls : List (List Nat)) (h : polls.join = []) :
    wait_for_response polls = .error .timeoutKind := by
  rw [wait_for_response]
  induction polls with
  | nil => simp [wait_for_response_go]
  | cons c rest ih =>
    have h' : c ++ rest.join = [] := h
    have hc : c = [] := (List.append_eq_nil.mp h').1
    have hrest : rest.join = [] := (List.append_eq_nil.mp h').2
    subst hc
    simp only [wait_for_response_go]
    rw [if_neg (by simp)]
    exact ih hrest

/-- The all-attempts-fail evaluation of the retry loop. -/
theorem send_retry_go_all_err (maxRetries : Nat)
    (outcome : Nat → AttemptOutcome)
    (h : ∀ k, outcome k = .errAttempt .timeoutKind) :
    ∀ fuel attempt lastErr, 0 < fuel →
    send_retry_go maxRetries outcome attempt fuel lastErr
      = ({ success := false, error_kind := some .timeoutKind,
           retry_count := maxRetries }, attempt + fuel) := by
  intro fuel
  induction fuel with
  | zero =>
    intro _ _ hpos
    omega
  | succ n ih =>
    intro attempt lastErr _
    simp only [send_retry_go, h attempt]
    cases n with
    | zero => simp [send_retry_go]
    | succ m =>
      rw [ih (attempt + 1) (some .timeoutKind) (by omega)]
      refine Prod.ext rfl ?_
      simp
      omega

/-- C7: with a transport whose writes succeed but which never delivers any
response byte, _send_with_retry fails with the TimeoutError recorded as last
error after performing exactly max_retries + 1 attempts, the recorded result
carries retry_count = max_retries, and send_calibration_command surfaces the
failure as a CommunicationError whose cause is that timeout. -/
theorem never_responding_transport_times_out (di : List Char)
    (params frame : List Nat)
    (hbuild : build_frame_excel_equivalent di params = some frame)
    (maxRetries : Nat) (pollsOf : Nat → List (List Nat))
    (hquiet : ∀ k, (pollsOf k).join = []) :
    send_with_retry maxRetries (fun k => attempt_once true (pollsOf k))
      = ({ success := false, response_frame := none,
           error_kind := some .timeoutKind, retry_count := maxRetries },
         maxRetries + 1) ∧
    send_calibration_command di params maxRetries
      (fun k => attempt_once true (pollsOf k)) = .error (some .timeoutKind) := by
  have hout : ∀ k, attempt_once true (pollsOf k)
      = .errAttempt .timeoutKind := by
    intro k
    simp [attempt_once, wait_join_nil (pollsOf k) (hquiet k)]
  have h1 := send_retry_go_all_err maxRetries
    (fun k => attempt_once true (pollsOf k)) hout (maxRetries + 1) 0 none
    (by omega)
  have h2 : send_with_retry maxRetries (fun k => attempt_once true (pollsOf k))
      = ({ success := false, response_frame := none,
           error_kind := some .timeoutKind, retry_count := maxRetries },
         maxRetries + 1) := by
    rw [send_with_retry, h1]
    refine Prod.ext rfl ?_
    simp
  refine ⟨h2, ?_⟩
  rw [send_calibration_command, hbuild]
  rw [h2]

/-- C7 witness with the default identifier, empty parameters, the default
max_retries = 3 and a transport that never delivers a byte. -/
theorem never_responding_transport_times_out_witness :
    build_frame_excel_equivalent di_00F81500 [] = some excel_fixture_frame ∧
    (send_with_retry 3 (fun k => attempt_once true ((fun _ => []) k))
        = ({ success := false, response_frame := none,
             error_kind := some .timeoutKind, retry_count := 3 }, 4) ∧
      send_calibration_command di_00F81500 [] 3
        (fun k => attempt_once true ((fun _ => []) k))
        = .error (some .timeoutKind)) :=
  ⟨by decide, never_responding_transport_times_out di_00F81500 []
    excel_fixture_frame (by decide) 3 (fun _ => []) (fun _ => rfl)⟩

theorem retry_step_go_ne_running (runs : Nat → StepStatus)
    (h : ∀ n, runs n ≠ .running) :
    ∀ rem k last, last ≠ .running → retry_step_go runs k rem last ≠ .running := by
  intro rem
  induction rem with
  | zero =>
    intro k last hl
    simpa [retry_step_go] using hl
  | succ m ih =>
    intro k last hl
    simp only [retry_step_go]
    by_cases hs : runs k = .success
    · rw [if_pos hs]
      simp
    · rw [if_neg hs]
      exact ih (k + 1) (runs k) (h k)

theorem execute_single_step_ne_running (cfg : ExecCfg)
    (runs : String → Nat → StepStatus) (id : String)
    (h : ∀ k, runs id k ≠ .running) :
    execute_single_step cfg runs id ≠ .running := by
  unfold execute_single_step
  by_cases hc : runs id 0 = .failed ∧ cfg.auto_retry_failed
  · rw [if_pos hc]
    exact retry_step_go_ne_running _ h _ _ _ (h 0)
  · rw [if_neg hc]
    exact h 0

/-- Counting invariant of the step loop: relative to the accumulated result,
each occurrence of an id in the newly executed steps is matched by at least
one Running callback invocation and at least one terminal (non-Running)
callback invocation recorded in the trace. -/
theorem run_steps_go_counts (cfg : ExecCfg) (runs : String → Nat → StepStatus)
    (cbRaises : String → StepStatus → Bool) (known : String → Bool)
    (stopReq : Bool) (hcb : cfg.has_callback = true)
    (hnr : ∀ id k, runs id k ≠ .running) :
    ∀ (ids : List String) (acc : ExecutionResult) (id : String),
      ((run_steps_go cfg runs cbRaises known stopReq ids acc).res.executed_steps.count id ≤
        acc.executed_steps.count id +
          (run_steps_go cfg runs cbRaises known stopReq ids acc).trace.countP
            (fun ev => ev.1 == id && ev.2 == StepStatus.running)) ∧
      ((run_steps_go cfg runs cbRaises known stopReq ids acc).res.executed_steps.count id ≤
        acc.executed_steps.count id +
          (run_steps_go cfg runs cbRaises known stopReq ids acc).trace.countP
            (fun ev => ev.1 == id && !(ev.2 == StepStatus.running))) := by
  intro ids
  induction ids with
  | nil =>
    intro acc id
    simp [run_steps_go]
  | cons id0 rest ih =>
    intro acc id
    simp only [run_steps_go]
    by_cases hstop : stopReq = true
    · rw [if_pos hstop]
      simp
    · rw [if_neg hstop]
      by_cases hk : known id0 = true
      · rw [if_neg (by simp [hk])]
        by_cases hr1 : cfg.has_callback = true ∧ cbRaises id0 .running = true
        · rw [if_pos (by simpa using hr1)]
          simp
        · rw [if_neg (by simpa using hr1)]
          have hst : execute_single_step cfg runs id0 ≠ .running :=
            execute_single_step_ne_running cfg runs id0 (fun k => hnr id0 k)
          have hstb : (execute_single_step cfg runs id0 == StepStatus.running)
              = false := by
            simp [hst]
          rw [hcb]
          by_cases hr2 : cbRaises id0 (execute_single_step cfg runs id0) = true
          · rw [if_pos (by simpa using hr2)]
            constructor
            · simp [record_step, List.count_append, List.countP_cons, hstb]
              by_cases hid : id0 = id <;> simp [hid, List.count_singleton]
            · simp [record_step, List.count_append, List.countP_cons, hstb]
              by_cases hid : id0 = id <;> simp [hid, List.count_singleton]
          · rw [if_neg (by simpa using hr2)]
            by_cases hfs : execute_single_step cfg runs id0 = .failed ∧
                cfg.stop_on_error = true
            · rw [if_pos (by simpa using hfs)]
              constructor
              · simp [record_step, List.count_append, List.countP_cons, hstb]
                by_cases hid : id0 = id <;> simp [hid, List.count_singleton]
              · simp [record_step, List.count_append, List.countP_cons, hstb]
                by_cases hid : id0 = id <;> simp [hid, List.count_singleton]
            · rw [if_neg (by simpa using hfs)]
              have hrec := ih (record_step id0 (execute_single_step cfg runs id0) acc) id
              constructor
              · refine le_trans hrec.1 ?_
                simp [record_step, List.count_append, List.countP_append,
                  List.countP_cons, hstb]
                by_cases hid : id0 = id <;>
                  simp [hid, List.count_singleton] <;> omega
              · refine le_trans hrec.2 ?_
                simp [record_step, List.count_append, List.countP_append,
                  List.countP_cons, hstb]
                by_cases hid : id0 = id <;>
                  simp [hid, List.count_singleton] <;> omega
      · rw [if_pos (by simp [hk])]
        simp

theorem run_selected_trace (cfg : ExecCfg) (runs : String → Nat → StepStatus)
    (cbRaises : String → StepStatus → Bool) (known : String → Bool)
    (stopReq : Bool) (ids : List String) :
    (run_selected cfg runs cbRaises known stopReq ids).trace
      = (run_steps_go cfg runs cbRaises known stopReq ids
          { status := .running }).trace := by
  rw [run_selected]
  split_ifs <;> rfl

theorem run_selected_executed (cfg : ExecCfg) (runs : String → Nat → StepStatus)
    (cbRaises : String → StepStatus → Bool) (known : String → Bool)
    (stopReq : Bool) (ids : List String) :
    (run_selected cfg runs cbRaises known stopReq ids).res.executed_steps
      = (run_steps_go cfg runs cbRaises known stopReq ids
          { status := .running }).res.executed_steps := by
  rw [run_selected]
  split_ifs <;> rfl

theorem run_selected_aborted_failed (cfg : ExecCfg)
    (runs : String → Nat → StepStatus) (cbRaises : String → StepStatus → Bool)
    (known : String → Bool) (stopReq : Bool) (ids : List String)
    (h : (run_selected cfg runs cbRaises known stopReq ids).aborted = true) :
    (run_selected cfg runs cbRaises known stopReq ids).res.status = .failed := by
  rw [run_selected] at h ⊢
  by_cases hab : (run_steps_go cfg runs cbRaises known stopReq ids
      { status := .running }).aborted = true
  · rw [if_pos hab] at h ⊢
  · rw [if_neg hab] at h ⊢
    by_cases hr : (run_steps_go cfg runs cbRaises known stopReq ids
        { status := .running }).res.status = .running
    · rw [if_pos hr] at h
      simp at h
    · rw [if_neg hr] at h
      exact absurd h (by simp [hab])

/-- C9 amended: with a progress callback configured and step outcomes that
are Success or Failed, every occurrence of an id among the executed steps is
matched by at least one Running callback invocation and at least one
terminal-status callback invocation; and when the callback (or an unknown
step id) raises, the batch is aborted: the exception is caught at the batch
level and the ExecutionResult is marked Failed, with the remaining steps not
executed. -/
theorem progress_callback_counts_and_abort (cfg : ExecCfg)
    (runs : String → Nat → StepStatus) (cbRaises : String → StepStatus → Bool)
    (known : String → Bool) (stopReq : Bool) (ids : List String)
    (hcb : cfg.has_callback = true)
    (hruns : ∀ id k, runs id k = .success ∨ runs id k = .failed) :
    (∀ id : String,
      (run_selected cfg runs cbRaises known stopReq ids).res.executed_steps.count id ≤
        (run_selected cfg runs cbRaises known stopReq ids).trace.countP
          (fun ev => ev.1 == id && ev.2 == StepStatus.running) ∧
      (run_selected cfg runs cbRaises known stopReq ids).res.executed_steps.count id ≤
        (run_selected cfg runs cbRaises known stopReq ids).trace.countP
          (fun ev => ev.1 == id && !(ev.2 == StepStatus.running))) ∧
    ((run_selected cfg runs cbRaises known stopReq ids).aborted = true →
      (run_selected cfg runs cbRaises known stopReq ids).res.status = .failed) := by
  have hnr : ∀ id k, runs id k ≠ .running := by
    intro id k
    rcases hruns id k with h | h <;> simp [h]
  refine ⟨?_, run_selected_aborted_failed cfg runs cbRaises known stopReq ids⟩
  intro id
  have hc := run_steps_go_counts cfg runs cbRaises known stopReq hcb hnr ids
    { status := .running } id
  rw [run_selected_trace, run_selected_executed]
  constructor
  · simpa using hc.1
  · simpa using hc.2

/-- C9-amended witness: one step, callback configured and never raising. -/
theorem progress_callback_counts_and_abort_witness :
    (⟨false, true, 2, true⟩ : ExecCfg).has_callback = true ∧
    ((run_selected ⟨false, true, 2, true⟩ (fun _ _ => .success)
        (fun _ _ => false) (fun _ => true) false
        ["step1"]).res.executed_steps.count "step1" ≤
      (run_selected ⟨false, true, 2, true⟩ (fun _ _ => .success)
        (fun _ _ => false) (fun _ => true) false ["step1"]).trace.countP
          (fun ev => ev.1 == "step1" && ev.2 == StepStatus.running)) ∧
    ((run_selected ⟨false, true, 2, true⟩ (fun _ _ => .success)
        (fun _ _ => false) (fun _ => true) false
        ["step1"]).res.executed_steps.count "step1" ≤
      (run_selected ⟨false, true, 2, true⟩ (fun _ _ => .success)
        (fun _ _ => false) (fun _ => true) false ["step1"]).trace.countP
          (fun ev => ev.1 == "step1" && !(ev.2 == StepStatus.running))) :=
  ⟨rfl,
    ((progress_callback_counts_and_abort ⟨false, true, 2, true⟩
      (fun _ _ => .success) (fun _ _ => false) (fun _ => true) false ["step1"]
      rfl (fun _ _ => Or.inl rfl)).1 "step1").1,
    ((progress_callback_counts_and_abort ⟨false, true, 2, true⟩
      (fun _ _ => .success) (fun _ _ => false) (fun _ => true) false ["step1"]
      rfl (fun _ _ => Or.inl rfl)).1 "step1").2⟩

/-- C9 (as stated) is false on the code: with two steps that would both
succeed and a callback that raises on its very first (Running) invocation,
the batch aborts: no step executes (in particular the remaining second step),
the result is marked Failed, and the trace holds the single Running
invocation.  The exception is caught at the batch level rather than being
swallowed per invocation. -/
theorem callback_exception_aborts_run :
    (run_selected ⟨false, true, 2, true⟩ (fun _ _ => .success)
        (fun _ _ => true) (fun _ => true) false
        ["step1", "step2"]).res.executed_steps = [] ∧
    (run_selected ⟨false, true, 2, true⟩ (fun _ _ => .success)
        (fun _ _ => true) (fun _ => true) false
        ["step1", "step2"]).res.status = .failed ∧
    (run_selected ⟨false, true, 2, true⟩ (fun _ _ => .success)
        (fun _ _ => true) (fun _ => true) false
        ["step1", "step2"]).trace = [("step1", .running)] := by
  refine ⟨?_, ?_, ?_⟩ <;> rfl

/-- C8: execute_selected_steps over five known step ids with stop_on_error
set, no cancellation requested and a callback that never raises, where the
first step succeeds and the second fails (its auto-retries included in
execute_single_step), stops after the second step: exactly two executed
steps and an overall Failed status. -/
theorem stop_on_error_after_second_step (cfg : ExecCfg)
    (runs : String → Nat → StepStatus)
    (cbRaises : String → StepStatus → Bool) (known : String → Bool)
    (i1 i2 i3 i4 i5 : String)
    (hstop : cfg.stop_on_error = true)
    (hcb : ∀ id st, cbRaises id st = false)
    (hk1 : known i1 = true) (hk2 : known i2 = true)
    (hk3 : known i3 = true) (hk4 : known i4 = true) (hk5 : known i5 = true)
    (h1 : execute_single_step cfg runs i1 = .success)
    (h2 : execute_single_step cfg runs i2 = .failed) :
    (run_selected cfg runs cbRaises known false
      [i1, i2, i3, i4, i5]).res.executed_steps.length = 2 ∧
    (run_selected cfg runs cbRaises known false
      [i1, i2, i3, i4, i5]).res.status = .failed := by
  refine ⟨?_, ?_⟩ <;>
    simp [run_selected, run_steps_go, record_step, hstop, hcb, hk1, hk2,
      h1, h2]

/-- C8 witness: the five registered step ids, step2 failing on every
execution attempt. -/
theorem stop_on_error_after_second_step_witness :
    (⟨true, true, 2, false⟩ : ExecCfg).stop_on_error = true ∧
    execute_single_step ⟨true, true, 2, false⟩
      (fun id _ => if id = "step2" then .failed else .success) "step1"
      = .success ∧
    execute_single_step ⟨true, true, 2, false⟩
      (fun id _ => if id = "step2" then .failed else .success) "step2"
      = .failed ∧
    ((run_selected ⟨true, true, 2, false⟩
        (fun id _ => if id = "step2" then .failed else .success)
        (fun _ _ => false) (fun id => all_step_ids.contains id) false
        ["step1", "step2", "step3", "step4", "step5"]).res.executed_steps.length
        = 2 ∧
      (run_selected ⟨true, true, 2, false⟩
        (fun id _ => if id = "step2" then .failed else .success)
        (fun _ _ => false) (fun id => all_step_ids.contains id) false
        ["step1", "step2", "step3", "step4", "step5"]).res.status = .failed) :=
  ⟨rfl, by decide, by decide,
    stop_on_error_after_second_step ⟨true, true, 2, false⟩
      (fun id _ => if id = "step2" then .failed else .success)
      (fun _ _ => false) (fun id => all_step_ids.contains id)
      "step1" "step2" "step3" "step4" "step5" rfl (fun _ _ => rfl)
      (by decide) (by decide) (by decide) (by decide) (by decide)
      (by decide) (by decide)⟩

/-- C10 (as stated) is false on the code: after cancel_execution, an
invocation of execute_selected_steps with an EMPTY step-id list returns
status Completed, not Cancelled (the loop body, and with it the stop-flag
check, never runs). -/
theorem cancelled_executor_empty_ids_completes :
    (cancel_execution ⟨false, .idle⟩).stop_requested = true ∧
    (execute_selected_steps ⟨false, true, 2, false⟩ (fun _ _ => .success)
        (fun _ _ => false) (fun _ => true)
        (cancel_execution ⟨false, .idle⟩) []).2.status = .completed ∧
    ExecutionStatus.completed ≠ ExecutionStatus.cancelled := by
  refine ⟨rfl, rfl, by decide⟩

/-- C10 amended: once the stop flag is set (as cancel_execution does), every
subsequent invocation of execute_selected_steps with a NON-EMPTY step-id
list returns status Cancelled with all per-step lists empty, makes no
callback invocation, executes no step, and leaves the flag set; the flag is
set by cancel_execution and cleared only by reset_all_steps. -/
theorem cancel_persists_until_reset (cfg : ExecCfg)
    (runs : String → Nat → StepStatus) (cbRaises : String → StepStatus → Bool)
    (known : String → Bool) (s : ExecutorState) (ids : List String)
    (hstop : s.stop_requested = true) (hne : ids ≠ []) :
    (execute_selected_steps cfg runs cbRaises known s ids).2.status = .cancelled ∧
    (execute_selected_steps cfg runs cbRaises known s ids).2.executed_steps = [] ∧
    (execute_selected_steps cfg runs cbRaises known s ids).2.successful_steps = [] ∧
    (execute_selected_steps cfg runs cbRaises known s ids).2.failed_steps = [] ∧
    (execute_selected_steps cfg runs cbRaises known s ids).2.skipped_steps = [] ∧
    (run_selected cfg runs cbRaises known s.stop_requested ids).trace = [] ∧
    (execute_selected_steps cfg runs cbRaises known s ids).1.stop_requested = true ∧
    (∀ t : ExecutorState, (cancel_execution t).stop_requested = true) ∧
    (∀ t : ExecutorState, (reset_all_steps t).stop_requested = false) := by
  cases ids with
  | nil => exact absurd rfl hne
  | cons id0 rest =>
    refine ⟨?_, ?_, ?_, ?_, ?_, ?_, ?_, fun t => rfl, fun t => rfl⟩ <;>
      simp [execute_selected_steps, run_selected, run_steps_go, hstop]

/-- C10-amended witness: a freshly cancelled idle executor invoked on one
step id. -/
theorem cancel_persists_until_reset_witness :
    (cancel_execution ⟨false, .idle⟩).stop_requested = true ∧
    (["step1"] : List String) ≠ [] ∧
    (execute_selected_steps ⟨false, true, 2, false⟩ (fun _ _ => .success)
        (fun _ _ => false) (fun _ => true) (cancel_execution ⟨false, .idle⟩)
        ["step1"]).2.status = .cancelled ∧
    (execute_selected_steps ⟨false, true, 2, false⟩ (fun _ _ => .success)
        (fun _ _ => false) (fun _ => true) (cancel_execution ⟨false, .idle⟩)
        ["step1"]).2.executed_steps = [] ∧
    (execute_selected_steps ⟨false, true, 2, false⟩ (fun _ _ => .success)
        (fun _ _ => false) (fun _ => true) (cancel_execution ⟨false, .idle⟩)
        ["step1"]).1.stop_requested = true ∧
    (reset_all_steps (cancel_execution ⟨false, .idle⟩)).stop_requested = false :=
  ⟨rfl, by decide,
    (cancel_persists_until_reset ⟨false, true, 2, false⟩ (fun _ _ => .success)
      (fun _ _ => false) (fun _ => true) (cancel_execution ⟨false, .idle⟩)
      ["step1"] rfl (by decide)).1,
    (cancel_persists_until_reset ⟨false, true, 2, false⟩ (fun _ _ => .success)
      (fun _ _ => false) (fun _ => true) (cancel_execution ⟨false, .idle⟩)
      ["step1"] rfl (by decide)).2.1,
    (cancel_persists_until_reset ⟨false, true, 2, false⟩ (fun _ _ => .success)
      (fun _ _ => false) (fun _ => true) (cancel_execution ⟨false, .idle⟩)
      ["step1"] rfl (by decide)).2.2.2.2.2.2.1,
    (cancel_persists_until_reset ⟨false, true, 2, false⟩ (fun _ _ => .success)
      (fun _ _ => false) (fun _ => true) (cancel_execution ⟨false, .idle⟩)
      ["step1"] rfl (by decide)).2.2.2.2.2.2.2.2 (cancel_execution ⟨false, .idle⟩)⟩
